import Mathlib

/-!
Shallow embedding of the BMS → Webull signal-to-order router (`src/app.py`).

Python floats are modelled as exact rationals (`ℚ`), Python ints as `ℤ`,
Python strings as `String`.  The Webull SDK is an external collaborator: each
broker-facing call is modelled by an oracle value describing its outcome, and
every invocation of a broker capability is recorded in an event trace so that
"invokes no broker capability" claims are statements about the trace.
Signature verification (an HMAC comparison over raw bytes) is abstracted to
its boolean outcome, and `time.strptime`/`time.mktime` date parsing is
abstracted to a `String → Option ℚ` parameter; neither is interrogated
further by any claim.
-/

namespace BmsRouter

/-- `bias` field of `BmsSignal`: `Literal["CALL","PUT","NEUTRAL"]`. -/
inductive Bias
| CALL
| PUT
| NEUTRAL
deriving DecidableEq

/-- `right` field: `Literal["CALL","PUT"]`. -/
inductive OptRight
| CALL
| PUT
deriving DecidableEq

/-- `product` field: `Literal["equity","option"]`. -/
inductive Product
| equity
| option
deriving DecidableEq

/-- The validated inbound payload (`class BmsSignal`). -/
structure BmsSignal where
  source : String
  timestamp_et : String
  product : Product
  symbol : String
  bias : Bias
  confidence : Int
  price : Rat
  orb : String
  vwap_sync : String
  idempotency_key : String
  expiry : Option String
  strike : Option Rat
  right : Option OptRight
  contracts : Option Int
deriving DecidableEq

/-- `sig.right or sig.bias`: the explicit right override, else the bias.
`NEUTRAL` never reaches this point (the bias filter exits earlier). -/
def Bias.toRight : Bias → OptRight
| .CALL => .CALL
| .PUT => .PUT
| .NEUTRAL => .CALL

/-- `TTL = 6*60*60` seconds. -/
def TTL : Rat := 21600

/-- The delete-loop of `is_dup` over `list(_seen.items())` (the `_seen` dict
is modelled as an insertion-ordered, key-unique association list): it removes
exactly the entries with `now - t > TTL`, so the surviving table is the
filter keeping `now - t ≤ TTL`. -/
def purge (now : Rat) (seen : List (String × Rat)) : List (String × Rat) :=
  seen.filter fun kt => decide (now - kt.2 ≤ TTL)

/-- `is_dup`: purge, then check-and-insert.  A fresh key returns `true` with
its timestamp untouched; a new or expired key is (re)inserted at the end of
the table with the current time and returns `false`. -/
def is_dup (now : Rat) (seen : List (String × Rat)) (key : String) :
    Bool × List (String × Rat) :=
  let purged := purge now seen
  if purged.any fun kt => kt.1 == key then
    (true, purged)
  else
    (false, purged ++ [(key, now)])

/-- `shares_from_notional`: `max(1, int(notional // max(px, 0.01)))`.
Float floor-division is exact rational floor in this model. -/
def shares_from_notional (notional px : Rat) : Int :=
  max 1 ⌊notional / max px (1/100)⌋

/-- `contracts_from_notional`: `max(1, int(notional // max(premium_per_share*100.0, 0.01)))`. -/
def contracts_from_notional (notional premium_per_share : Rat) : Int :=
  max 1 ⌊notional / max (premium_per_share * 100) (1/100)⌋

/-- Python `sym.upper()` (ASCII tickers only reach this code). -/
def pyUpper (s : String) : String :=
  String.mk (s.data.map Char.toUpper)

/-- `ensure_equity_supported` raises 422 exactly when the upper-cased symbol
is one of the crypto tickers. -/
def is_unsupported_symbol (sym : String) : Bool :=
  pyUpper sym ∈ (["BTC", "ETH", "BTCUSD", "ETHUSD"] : List String)

/-- One entry of `chain['data']['list']`: may lack an `'expireDate'`. -/
structure Expiration where
  expireDate : Option String
deriving DecidableEq

/-- One leg (`item['call']` / `item['put']`) of a per-expiry quote entry.
Missing numeric fields model `leg.get(...)` returning `None` (Python also
treats `0.0` as falsy in `or 0.0`, which yields the same value `0`). -/
structure Leg where
  delta : Option Rat
  latestPrice : Option Rat
  contractId : Option String
  symbol : Option String
  contractSymbol : Option String
deriving DecidableEq

/-- One entry of the per-expiry quote list (`chain_for_exp['data']`). -/
structure ChainItem where
  strikePrice : Rat
  call : Option Leg
  put : Option Leg
deriving DecidableEq

/-- An option candidate parsed out of the quote data. -/
structure Cand where
  contractId : String
  strike : Rat
  delta : Rat
  last : Rat
  expiry : Option String
deriving DecidableEq

/-- Every broker-capability invocation the router can make, with its
arguments, recorded in order of occurrence. -/
inductive BrokerCall
| login
| getTradeToken
| getOptions (symbol : String)
| getOptionQuote (symbol : String) (expireDate : Option String)
| placeOptionOrder (symbol : String) (side : String) (contracts : Int)
    (contractId : String)
| placeEquityOrder (symbol : String) (side : String) (qty : Int)
deriving DecidableEq

/-- Oracle describing the outcome of each broker-facing call for one request:
`loginOk`/`tokenOk` say whether `wb.login`/`wb.get_trade_token` raise;
`chain = none` models a falsy or `'data'`-less `wb.get_options` response;
`quotes e = none` models a falsy `wb.get_option_quote` response for expiry
`e`; `optionOrder` is the outcome of `wb.place_order_option_paper`; and
`equityOrder n` is the outcome of the `n`-th `wb.place_order_stock_paper`
call of the request (the code can make up to two). -/
structure Broker where
  loginOk : Bool
  tokenOk : Bool
  chain : Option (List Expiration)
  quotes : Option String → Option (List ChainItem)
  optionOrder : Except String String
  equityOrder : Nat → Except String String

/-- Python truthiness of an optional string chained with `or`: an absent or
empty value falls through to the alternative. -/
def orTruthy (a b : Option String) : Option String :=
  match a with
  | some s => if s = "" then b else some s
  | none => b

/-- Does this expiration pass the DTE-window test of the scan loop?  `parse`
abstracts `time.mktime(time.strptime(ed, "%Y-%m-%d"))` (a `none` models the
`except: continue`); the window is `0 < dte <= DEFAULT_DTE_MAX` with
`dte = (t - today)/86400.0`. -/
def qualifies (parse : String → Option Rat) (today maxDte : Rat)
    (e : Expiration) : Bool :=
  match e.expireDate with
  | none => false
  | some ed =>
    match parse ed with
    | none => false
    | some t => decide (0 < (t - today) / 86400) && decide ((t - today) / 86400 ≤ maxDte)

/-- The expiry-selection scan of `pick_option_contract`: `target_exp` is the
`expireDate` of the first expiration passing the window; if the loop sets no
(truthy) value, the code falls back to `expirations[0].get('expireDate')`
regardless of the window.  (A selected empty-string date is falsy in Python's
`if not target_exp`, hence also falls back.) -/
def select_expiry (parse : String → Option Rat) (today maxDte : Rat)
    (exps : List Expiration) : Option String :=
  match (exps.find? (qualifies parse today maxDte)).bind (·.expireDate) with
  | some ed => if ed = "" then exps.head?.bind (·.expireDate) else some ed
  | none => exps.head?.bind (·.expireDate)

/-- The candidate extraction loop over `chain_for_exp['data']`: take the leg
matching `right`, skip entries missing that leg or a (truthy) contract
identifier, read `delta` and `latestPrice` with missing values as `0`. -/
def build_cands (right : OptRight) (target_exp : Option String)
    (items : List ChainItem) : List Cand :=
  items.filterMap fun item =>
    match (match right with | .CALL => item.call | .PUT => item.put) with
    | none => none
    | some leg =>
      match orTruthy leg.contractId (orTruthy leg.symbol leg.contractSymbol) with
      | none => none
      | some cid =>
        some { contractId := cid
               strike := item.strikePrice
               delta := |(leg.delta.getD 0)|
               last := leg.latestPrice.getD 0
               expiry := target_exp }

/-- `cands.sort(key=lambda x: abs(x['delta']-DEFAULT_DELTA_TARGET))` followed
by `cands[0]`: Python's sort is stable, so the head of the sorted list is the
first-seen candidate attaining the minimal key, which is what this recursion
computes (keep the earlier element unless a strictly better one follows). -/
def pickBest (target : Rat) : List Cand → Option Cand
| [] => none
| c :: rest =>
  match pickBest target rest with
  | none => some c
  | some b => if |b.delta - target| < |c.delta - target| then some b else some c

/-- `pick_option_contract(symbol, right)`, threading the oracle for the two
market-data calls and returning the raised message on failure together with
the trace of broker calls made. -/
def pick_option_contract (parse : String → Option Rat) (today maxDte target : Rat)
    (b : Broker) (symbol : String) (right : OptRight) :
    Except String Cand × List BrokerCall :=
  match b.chain with
  | none => (.error "Options chain unavailable from Webull SDK.", [.getOptions symbol])
  | some exps =>
    if exps.isEmpty then
      (.error "No expirations found.", [.getOptions symbol])
    else
      let target_exp := select_expiry parse today maxDte exps
      match b.quotes target_exp with
      | none =>
        (.error "Option quotes unavailable for expiry.",
         [.getOptions symbol, .getOptionQuote symbol target_exp])
      | some items =>
        match pickBest target (build_cands right target_exp items) with
        | none =>
          (.error "No option candidates parsed for expiry/right.",
           [.getOptions symbol, .getOptionQuote symbol target_exp])
        | some c =>
          (.ok c, [.getOptions symbol, .getOptionQuote symbol target_exp])

/-- The configuration surface read from the environment. -/
structure Config where
  notional : Rat
  dryRun : Bool
  deltaTarget : Rat
  dteMax : Rat
  user : String
  passwd : String
  pin : String

/-- Default `NOTIONAL_DEFAULT`. -/
def NOTIONAL_DEFAULT : Rat := 5000

/-- Default `OPT_DELTA` target. -/
def DEFAULT_DELTA_TARGET : Rat := 3/10

/-- Default `OPT_DTE_MAX`. -/
def DEFAULT_DTE_MAX : Rat := 7

/-- `lazy_login()`: returns the outcome, the new `_logged_in` flag, and the
trace of session-capability calls.  The double-checked lock is irrelevant in
this single-request model; `not (WB_USER and WB_PASS and WB_PIN)` is the
emptiness test on the three credential strings. -/
def lazy_login (cfg : Config) (b : Broker) (logged : Bool) :
    Except String Unit × Bool × List BrokerCall :=
  if logged then (.ok (), true, [])
  else if cfg.user = "" || cfg.passwd = "" || cfg.pin = "" then
    (.error "Missing WEBULL_USERNAME / WEBULL_PASSWORD / WEBULL_TRADING_PIN",
     false, [])
  else if !b.loginOk then (.error "login failed", false, [.login])
  else if !b.tokenOk then
    (.error "trade token failed", false, [.login, .getTradeToken])
  else (.ok (), true, [.login, .getTradeToken])

/-- Process-wide mutable state: the `_seen` dedup table and `_logged_in`. -/
structure St where
  seen : List (String × Rat)
  logged : Bool
deriving DecidableEq

/-- The fields of the JSON decision dicts the `/trade` handler returns;
fields a given return statement does not mention are `none`. -/
structure Decision where
  status : String
  reason : Option String := none
  product : Option Product := none
  symbol : Option String := none
  side : Option String := none
  qty : Option Int := none
  contracts : Option Int := none
  rightEcho : Option OptRight := none
  expiryEcho : Option (Option String) := none
  strikeEcho : Option Rat := none
  res : Option String := none
deriving DecidableEq

/-- Outcome of one `/trade` request: an `HTTPException(code, msg)` or a
decision payload. -/
inductive TradeResult
| httpError (code : Nat) (msg : String)
| ok (d : Decision)
deriving DecidableEq

/-- Status string of a result, when it is a decision. -/
def statusOf : TradeResult → Option String
| .httpError _ _ => none
| .ok d => some d.status

/-- An inbound request after the excluded transport layer: the boolean
outcome of `verify_signature` and the payload when `model_validate_json`
succeeds. -/
structure Req where
  sigOk : Bool
  payload : Option BmsSignal

/-- `sig.contracts or contracts_from_notional(NOTIONAL_DEFAULT, premium)`:
Python `or` falls through on a falsy (absent or zero) explicit count. -/
def computed_contracts (explicit : Option Int) (notional premium : Rat) : Int :=
  match explicit with
  | some n => if n ≠ 0 then n else contracts_from_notional notional premium
  | none => contracts_from_notional notional premium

/-- The options path of the handler (the big `if sig.product == "option"`
block), given the already-derived `side`.  The outer `except Exception`
catches everything non-HTTP raised from the inner block — including the
failure of the *inner* equity fallback attempt, in which case a second
equity order is attempted. -/
def option_path (cfg : Config) (b : Broker) (parse : String → Option Rat)
    (today : Rat) (sig : BmsSignal) (side : String) :
    TradeResult × List BrokerCall :=
  let right := sig.right.getD sig.bias.toRight
  let eq_qty := shares_from_notional cfg.notional (max sig.price (1/100))
  match pick_option_contract parse today cfg.dteMax cfg.deltaTarget b sig.symbol right with
  | (.error e, tr) =>
    -- contract selection raised: outer handler, equity fallback
    (match b.equityOrder 0 with
     | .ok r2 =>
       (.ok { status := "fallback_equity"
              reason := some ("options_unavailable: " ++ e)
              qty := some eq_qty, res := some r2 },
        tr ++ [.placeEquityOrder sig.symbol side eq_qty])
     | .error e2 =>
       (.httpError 502 ("webull_equity_fallback_failed: " ++ e2),
        tr ++ [.placeEquityOrder sig.symbol side eq_qty]))
  | (.ok chosen, tr) =>
    let premium := max chosen.last (1/20)
    let contracts := computed_contracts sig.contracts cfg.notional premium
    if contracts ≤ 0 then
      -- `RuntimeError("Computed contracts <= 0")` caught by the outer handler
      (match b.equityOrder 0 with
       | .ok r2 =>
         (.ok { status := "fallback_equity"
                reason := some "options_unavailable: Computed contracts <= 0"
                qty := some eq_qty, res := some r2 },
          tr ++ [.placeEquityOrder sig.symbol side eq_qty])
       | .error e2 =>
         (.httpError 502 ("webull_equity_fallback_failed: " ++ e2),
          tr ++ [.placeEquityOrder sig.symbol side eq_qty]))
    else
      match b.optionOrder with
      | .ok r =>
        (.ok { status := "submitted_option", symbol := some sig.symbol
               contracts := some contracts, rightEcho := some right
               expiryEcho := some chosen.expiry, strikeEcho := some chosen.strike
               res := some r },
         tr ++ [.placeOptionOrder sig.symbol side contracts chosen.contractId])
      | .error e =>
        -- options placement raised: inner handler, first equity fallback
        match b.equityOrder 0 with
        | .ok r2 =>
          (.ok { status := "fallback_equity"
                 reason := some ("options_failed: " ++ e)
                 qty := some eq_qty, res := some r2 },
           tr ++ [.placeOptionOrder sig.symbol side contracts chosen.contractId,
                  .placeEquityOrder sig.symbol side eq_qty])
        | .error e2 =>
          -- the inner fallback itself raised; that exception escapes to the
          -- outer handler, which attempts a second equity placement
          match b.equityOrder 1 with
          | .ok r3 =>
            (.ok { status := "fallback_equity"
                   reason := some ("options_unavailable: " ++ e2)
                   qty := some eq_qty, res := some r3 },
             tr ++ [.placeOptionOrder sig.symbol side contracts chosen.contractId,
                    .placeEquityOrder sig.symbol side eq_qty,
                    .placeEquityOrder sig.symbol side eq_qty])
          | .error e3 =>
            (.httpError 502 ("webull_equity_fallback_failed: " ++ e3),
             tr ++ [.placeOptionOrder sig.symbol side contracts chosen.contractId,
                    .placeEquityOrder sig.symbol side eq_qty,
                    .placeEquityOrder sig.symbol side eq_qty])

/-- The equity path of the handler (the final block). -/
def equity_path (cfg : Config) (b : Broker) (sig : BmsSignal) (side : String) :
    TradeResult × List BrokerCall :=
  let qty := shares_from_notional cfg.notional (max sig.price (1/100))
  match b.equityOrder 0 with
  | .ok r =>
    (.ok { status := "submitted_equity", symbol := some sig.symbol
           qty := some qty, res := some r },
     [.placeEquityOrder sig.symbol side qty])
  | .error e =>
    (.httpError 502 ("webull_equity_error: " ++ e),
     [.placeEquityOrder sig.symbol side qty])

/-- The `/trade` handler: result, new process state, and the trace of broker
capability calls.  `now` is the `time.time()` sample taken inside `is_dup`,
`today` the one taken inside `pick_option_contract`. -/
def trade (cfg : Config) (b : Broker) (parse : String → Option Rat)
    (now today : Rat) (st : St) (req : Req) :
    TradeResult × St × List BrokerCall :=
  if !req.sigOk then (.httpError 401 "Bad signature", st, [])
  else
    match req.payload with
    | none => (.httpError 400 "Bad payload", st, [])
    | some sig =>
      let pr := is_dup now st.seen sig.idempotency_key
      let st1 : St := { st with seen := pr.2 }
      if pr.1 then (.ok { status := "duplicate_ignored" }, st1, [])
      else if sig.bias = .NEUTRAL then
        (.ok { status := "ignored", reason := some "neutral" }, st1, [])
      else if is_unsupported_symbol sig.symbol then
        (.httpError 422 "Webull PAPER options/equity supports stocks/ETFs, not crypto.",
         st1, [])
      else
        let side := if sig.bias = .CALL then "BUY" else "SELL"
        if cfg.dryRun then
          (.ok { status := "dry_run", product := some sig.product
                 symbol := some sig.symbol, side := some side }, st1, [])
        else
          match lazy_login cfg b st1.logged with
          | (.error e, logged2, tr) =>
            (.httpError 503 ("webull_login_required: " ++ e),
             { st1 with logged := logged2 }, tr)
          | (.ok _, logged2, tr) =>
            let st2 : St := { st1 with logged := logged2 }
            match sig.product with
            | .option =>
              let r := option_path cfg b parse today sig side
              (r.1, st2, tr ++ r.2)
            | .equity =>
              let r := equity_path cfg b sig side
              (r.1, st2, tr ++ r.2)

/-- Number of equity order placements recorded in a trace. -/
def countEquityOrders (tr : List BrokerCall) : Nat :=
  (tr.filter fun c =>
    match c with
    | .placeEquityOrder _ _ _ => true
    | _ => false).length

/-! ### Concrete fixtures used by witnesses and counterexamples -/

/-- A configuration with all defaults and credentials present. -/
def cfg0 : Config :=
  { notional := NOTIONAL_DEFAULT, dryRun := false
    deltaTarget := DEFAULT_DELTA_TARGET, dteMax := DEFAULT_DTE_MAX
    user := "u", passwd := "p", pin := "123456" }

/-- `cfg0` with dry-run enabled. -/
def cfgDry : Config := { cfg0 with dryRun := true }

/-- A date parser knowing one date, one day (86400 s) after time zero. -/
def parse0 : String → Option Rat :=
  fun s => if s = "2025-01-10" then some 86400 else none

/-- A call leg of delta 0.22. -/
def leg22 : Leg :=
  { delta := some (22/100), latestPrice := some (5/2), contractId := some "c22"
    symbol := none, contractSymbol := none }

/-- A call leg of delta 0.31. -/
def leg31 : Leg :=
  { delta := some (31/100), latestPrice := some (5/2), contractId := some "c31"
    symbol := none, contractSymbol := none }

/-- A call leg of delta 0.45. -/
def leg45 : Leg :=
  { delta := some (45/100), latestPrice := some (5/2), contractId := some "c45"
    symbol := none, contractSymbol := none }

/-- The three-candidate quote list of the spec's ranking example. -/
def items0 : List ChainItem :=
  [ { strikePrice := 100, call := some leg22, put := none }
  , { strikePrice := 101, call := some leg31, put := none }
  , { strikePrice := 102, call := some leg45, put := none } ]

/-- A broker for which every capability succeeds. -/
def broker0 : Broker :=
  { loginOk := true, tokenOk := true
    chain := some [{ expireDate := some "2025-01-10" }]
    quotes := fun _ => some items0
    optionOrder := .ok "oid"
    equityOrder := fun _ => .ok "eid" }

/-- A broker for which options placement raises, the first equity placement
raises, and the second equity placement succeeds. -/
def brokerC1 : Broker :=
  { broker0 with
    optionOrder := .error "sdk"
    equityOrder := fun n => if n = 0 then .error "rejected" else .ok "eid2" }

/-- A directional option-product signal. -/
def sigOpt : BmsSignal :=
  { source := "BMS_Vacuum", timestamp_et := "t", product := .option
    symbol := "QQQ", bias := .CALL, confidence := 0, price := 400
    orb := "", vwap_sync := "", idempotency_key := "k1"
    expiry := none, strike := none, right := none, contracts := none }

/-- `sigOpt` with an explicit contract count of zero. -/
def sigOptZero : BmsSignal := { sigOpt with contracts := some 0 }

/-- `sigOpt` with an explicit contract count of five. -/
def sigOptFive : BmsSignal := { sigOpt with contracts := some 5 }

/-- A neutral-bias signal. -/
def sigNeutral : BmsSignal := { sigOpt with bias := .NEUTRAL, product := .equity }

/-- Initial state: empty dedup table, already logged in. -/
def st0 : St := { seen := [], logged := true }

/-- A validly signed request wrapping a payload. -/
def mkReq (sig : BmsSignal) : Req := { sigOk := true, payload := some sig }

/-- A broker whose per-expiry quote list yields no candidates. -/
def brokerNoCands : Broker := { broker0 with quotes := fun _ => some [] }

/-- A state whose dedup table already holds `sigOpt`'s idempotency key. -/
def stDup : St := { seen := [("k1", 0)], logged := true }

/-- The single expiration listed by `broker0`. -/
def exp0 : Expiration := { expireDate := some "2025-01-10" }

/-- The candidate `build_cands` derives from `leg22`. -/
def cand22 : Cand :=
  { contractId := "c22", strike := 100, delta := 22/100, last := 5/2
    expiry := some "2025-01-10" }

/-- The candidate `build_cands` derives from `leg31`. -/
def cand31 : Cand :=
  { contractId := "c31", strike := 101, delta := 31/100, last := 5/2
    expiry := some "2025-01-10" }

/-- The candidate `build_cands` derives from `leg45`. -/
def cand45 : Cand :=
  { contractId := "c45", strike := 102, delta := 45/100, last := 5/2
    expiry := some "2025-01-10" }

/-! ### Helper lemmas -/

lemma mem_purge_iff (now : Rat) (seen : List (String × Rat)) (kt : String × Rat) :
    kt ∈ purge now seen ↔ kt ∈ seen ∧ now - kt.2 ≤ TTL := by
  simp [purge]

lemma is_dup_fst (now : Rat) (seen : List (String × Rat)) (key : String) :
    (is_dup now seen key).1 = (purge now seen).any fun kt => kt.1 == key := by
  unfold is_dup
  by_cases h : ((purge now seen).any fun kt => kt.1 == key) = true <;> simp [h]

lemma is_dup_true_iff (now : Rat) (seen : List (String × Rat)) (key : String) :
    (is_dup now seen key).1 = true ↔ ∃ t, (key, t) ∈ seen ∧ now - t ≤ TTL := by
  rw [is_dup_fst]
  simp only [List.any_eq_true, beq_iff_eq]
  constructor
  · rintro ⟨⟨k, t⟩, hmem, hk⟩
    obtain rfl : k = key := hk
    rw [mem_purge_iff] at hmem
    exact ⟨t, hmem.1, hmem.2⟩
  · rintro ⟨t, hmem, ht⟩
    exact ⟨(key, t), (mem_purge_iff now seen (key, t)).mpr ⟨hmem, ht⟩, rfl⟩

lemma is_dup_snd_of_true (now : Rat) (seen : List (String × Rat)) (key : String)
    (h : (is_dup now seen key).1 = true) :
    (is_dup now seen key).2 = purge now seen := by
  unfold is_dup at h ⊢
  by_cases hc : ((purge now seen).any fun kt => kt.1 == key) = true <;> simp_all

lemma is_dup_snd_of_false (now : Rat) (seen : List (String × Rat)) (key : String)
    (h : (is_dup now seen key).1 = false) :
    (is_dup now seen key).2 = purge now seen ++ [(key, now)] := by
  unfold is_dup at h ⊢
  by_cases hc : ((purge now seen).any fun kt => kt.1 == key) = true <;> simp_all

/-! ### Claim theorems -/

/-- C5: on every call the dedup check first purges exactly the entries whose
recorded timestamp is older than `TTL = 21600` seconds relative to the single
clock sample `now`; it returns `true` for a currently-fresh key without
touching its timestamp, returns `false` for a new or expired key while
(re)inserting it at the current time, and consequently a key admitted at `t0`
is reported duplicate at `t1` exactly when `t1 - t0 ≤ 21600` — the same key
is accepted again after the 6-hour window. -/
theorem C5_dedup_semantics (seen : List (String × Rat)) (key : String)
    (now t0 t1 : Rat) :
    TTL = 21600 ∧
    (∀ kt, kt ∈ purge now seen ↔ kt ∈ seen ∧ now - kt.2 ≤ TTL) ∧
    ((is_dup now seen key).1 = true ↔ ∃ t, (key, t) ∈ seen ∧ now - t ≤ TTL) ∧
    ((is_dup now seen key).1 = true → (is_dup now seen key).2 = purge now seen) ∧
    ((is_dup now seen key).1 = false →
       (is_dup now seen key).2 = purge now seen ++ [(key, now)]) ∧
    ((is_dup t0 seen key).1 = false →
       ((is_dup t1 (is_dup t0 seen key).2 key).1 = true ↔ t1 - t0 ≤ TTL)) := by
  refine ⟨rfl, mem_purge_iff now seen, is_dup_true_iff now seen key,
    is_dup_snd_of_true now seen key, is_dup_snd_of_false now seen key, ?_⟩
  intro h0
  rw [is_dup_snd_of_false t0 seen key h0, is_dup_true_iff]
  constructor
  · rintro ⟨t, hmem, ht⟩
    rcases List.mem_append.mp hmem with hin | hin
    · exfalso
      rw [mem_purge_iff] at hin
      have habs : (is_dup t0 seen key).1 = true :=
        (is_dup_true_iff t0 seen key).mpr ⟨t, hin.1, hin.2⟩
      rw [h0] at habs
      exact Bool.false_ne_true habs
    · have : t = t0 := by simpa using hin
      rw [this] at ht
      exact ht
  · intro ht
    exact ⟨t0, List.mem_append.mpr (Or.inr (by simp)), ht⟩

/-- Witness for C5: key "k" admitted at time 0 is reported duplicate at
time 100 (within the 6-hour window). -/
theorem C5_dedup_semantics_witness :
    (is_dup 100 (is_dup 0 [] "k").2 "k").1 = true :=
  ((C5_dedup_semantics [] "k" 0 0 100).2.2.2.2.2
    (by simp [is_dup, purge])).mpr (by norm_num [TTL])

/-- C6: `shares_from_notional` and `contracts_from_notional` equal the spec's
formulas `max(1, floor(notional / max(price, 0.01)))` and
`max(1, floor(notional / max(premium*100, 0.01)))`; both results are `≥ 1`;
on a nonnegative notional the floored quotient is nonnegative and does not
exceed the exact quotient (so flooring rounds toward zero there); and
concretely `shares_from_notional 5000 250 = 20`,
`contracts_from_notional 5000 2.50 = 20`, while a zero price still yields a
positive integer rather than a division error. -/
theorem C6_sizer_arithmetic :
    (∀ n px : Rat, shares_from_notional n px = max 1 ⌊n / max px (1/100)⌋) ∧
    (∀ n p : Rat,
       contracts_from_notional n p = max 1 ⌊n / max (p * 100) (1/100)⌋) ∧
    (∀ n px : Rat,
       1 ≤ shares_from_notional n px ∧ 1 ≤ contracts_from_notional n px) ∧
    (∀ n px : Rat, 0 ≤ n →
       0 ≤ ⌊n / max px (1/100)⌋ ∧
       (⌊n / max px (1/100)⌋ : Rat) ≤ n / max px (1/100)) ∧
    shares_from_notional 5000 250 = 20 ∧
    contracts_from_notional 5000 (5/2) = 20 ∧
    1 ≤ shares_from_notional 5000 0 := by
  have hfloor20 : (⌊(20:Rat)⌋ : Int) = 20 := by
    rw [Int.floor_eq_iff]
    norm_num
  refine ⟨fun n px => rfl, fun n p => rfl,
    fun n px => ⟨le_max_left _ _, le_max_left _ _⟩, ?_, ?_, ?_, le_max_left _ _⟩
  · intro n px hn
    have hpos : (0:Rat) < max px (1/100) :=
      lt_of_lt_of_le (by norm_num) (le_max_right px (1/100))
    exact ⟨Int.floor_nonneg.mpr (div_nonneg hn hpos.le), Int.floor_le _⟩
  · norm_num [shares_from_notional, hfloor20]
  · norm_num [contracts_from_notional, hfloor20]

/-- Witness for C6: the toward-zero conjunct instantiated at notional 5000,
price 250. -/
theorem C6_sizer_arithmetic_witness :
    0 ≤ ⌊(5000:Rat) / max 250 (1/100)⌋ :=
  ((C6_sizer_arithmetic.2.2.2.1 5000 250 (by norm_num)).1)

/-- C10: the session gate fails with the missing-credentials configuration
error when a credential is empty and the process is not logged in; any
failure leaves the logged-in flag unset (retryable); once logged in the gate
is an immediate no-broker-call success, and no `/trade` request can clear the
logged-in flag. -/
theorem C10_session_gate (cfg : Config) (b : Broker) :
    ((cfg.user = "" ∨ cfg.passwd = "" ∨ cfg.pin = "") →
       lazy_login cfg b false =
         (.error "Missing WEBULL_USERNAME / WEBULL_PASSWORD / WEBULL_TRADING_PIN",
          false, [])) ∧
    (∀ e, (lazy_login cfg b false).1 = .error e →
       (lazy_login cfg b false).2.1 = false) ∧
    lazy_login cfg b true = (.ok (), true, []) ∧
    (∀ parse now today st req, st.logged = true →
       (trade cfg b parse now today st req).2.1.logged = true) := by
  refine ⟨?_, ?_, by simp [lazy_login], ?_⟩
  · rintro (h | h | h) <;> simp [lazy_login, h]
  · intro e
    unfold lazy_login
    split
    · simp
    · split
      · simp
      · split
        · simp
        · split <;> simp
  · intro parse now today st req hst
    rcases req with ⟨sigOk, payload⟩
    cases sigOk
    · simp [trade, hst]
    · cases payload with
      | none => simp [trade, hst]
      | some sig =>
        simp only [trade]
        by_cases hdup : (is_dup now st.seen sig.idempotency_key).1
        · simp [hdup, hst]
        · by_cases hneu : sig.bias = .NEUTRAL
          · simp [hdup, hneu, hst]
          · by_cases hsym : is_unsupported_symbol sig.symbol
            · simp [hdup, hneu, hsym, hst]
            · by_cases hdry : cfg.dryRun
              · simp [hdup, hneu, hsym, hdry, hst]
              · cases sig.product <;>
                  simp [hdup, hneu, hsym, hdry, hst, lazy_login]

/-- Witness for C10: with an empty username and the flag unset, the gate
fails with the configuration error and does not set the flag. -/
theorem C10_session_gate_witness :
    lazy_login { cfg0 with user := "" } broker0 false =
      (.error "Missing WEBULL_USERNAME / WEBULL_PASSWORD / WEBULL_TRADING_PIN",
       false, []) :=
  (C10_session_gate { cfg0 with user := "" } broker0).1 (Or.inl rfl)

/-- `pickBest` on a cons unfolds to a comparison with the best of the tail. -/
lemma pickBest_cons (t : Rat) (c : Cand) (l : List Cand) :
    pickBest t (c :: l) =
      match pickBest t l with
      | none => some c
      | some b => if |b.delta - t| < |c.delta - t| then some b else some c := rfl

/-- `pickBest` finds something on a non-empty list. -/
lemma pickBest_some (t : Rat) (c : Cand) (l : List Cand) :
    ∃ r, pickBest t (c :: l) = some r := by
  rw [pickBest_cons]
  cases pickBest t l with
  | none => exact ⟨c, rfl⟩
  | some b =>
    by_cases hc : |b.delta - t| < |c.delta - t|
    · exact ⟨b, if_pos hc⟩
    · exact ⟨c, if_neg hc⟩

/-- The result of `pickBest` is the first-seen candidate attaining the
minimal distance to the target delta: everything before it is strictly worse
and nothing anywhere is better. -/
lemma pickBest_decomp (t : Rat) :
    ∀ (l : List Cand) (c : Cand), pickBest t l = some c →
      ∃ l1 l2, l = l1 ++ c :: l2 ∧
        (∀ d ∈ l1, |c.delta - t| < |d.delta - t|) ∧
        ∀ d ∈ l, |c.delta - t| ≤ |d.delta - t| := by
  intro l
  induction l with
  | nil => intro c h; simp [pickBest] at h
  | cons a l ih =>
    intro c h
    rw [pickBest_cons] at h
    cases hl : pickBest t l with
    | none =>
      rw [hl] at h
      obtain rfl : a = c := by injection h
      have hnil : l = [] := by
        cases l with
        | nil => rfl
        | cons x xs =>
          obtain ⟨r, hr⟩ := pickBest_some t x xs
          rw [hr] at hl
          cases hl
      subst hnil
      exact ⟨[], [], rfl, by simp, by simp⟩
    | some b =>
      rw [hl] at h
      simp only at h
      obtain ⟨l1, l2, hdec, hstrict, hmin⟩ := ih b hl
      by_cases hc : |b.delta - t| < |a.delta - t|
      · rw [if_pos hc] at h
        obtain rfl : b = c := by injection h
        refine ⟨a :: l1, l2, by simp [hdec], ?_, ?_⟩
        · intro d hd
          rcases List.mem_cons.mp hd with rfl | hd
          · exact hc
          · exact hstrict d hd
        · intro d hd
          rcases List.mem_cons.mp hd with rfl | hd
          · exact hc.le
          · exact hmin d hd
      · rw [if_neg hc] at h
        obtain rfl : a = c := by injection h
        refine ⟨[], l, rfl, by simp, ?_⟩
        intro d hd
        rcases List.mem_cons.mp hd with rfl | hd
        · exact le_refl _
        · exact le_trans (not_lt.mp hc) (hmin d hd)

/-- C7: for every non-empty candidate set the selector returns a candidate,
and the returned candidate minimizes `abs(delta - target)` with ties broken
by input order (everything before it is strictly worse); the default target
is 0.30; on the candidate deltas 0.22 / 0.31 / 0.45 against target 0.30 the
full `pick_option_contract` returns the 0.31 candidate; and on an empty
candidate set it fails with the no-candidates error. -/
theorem C7_nearest_delta (t : Rat) (cands : List Cand) (c : Cand) :
    (cands ≠ [] → ∃ r, pickBest t cands = some r) ∧
    (pickBest t cands = some c →
       ∃ l1 l2, cands = l1 ++ c :: l2 ∧
         (∀ d ∈ cands, |c.delta - t| ≤ |d.delta - t|) ∧
         ∀ d ∈ l1, |c.delta - t| < |d.delta - t|) ∧
    DEFAULT_DELTA_TARGET = 3/10 ∧
    (pick_option_contract parse0 0 DEFAULT_DTE_MAX DEFAULT_DELTA_TARGET
        broker0 "QQQ" .CALL).1 = .ok cand31 ∧
    (pick_option_contract parse0 0 DEFAULT_DTE_MAX DEFAULT_DELTA_TARGET
        brokerNoCands "QQQ" .CALL).1 =
      .error "No option candidates parsed for expiry/right." := by
  refine ⟨?_, ?_, rfl, ?_, ?_⟩
  · intro hne
    cases cands with
    | nil => exact absurd rfl hne
    | cons a l => exact pickBest_some t a l
  · intro h
    obtain ⟨l1, l2, hdec, hstrict, hmin⟩ := pickBest_decomp t cands c h
    exact ⟨l1, l2, hdec, hmin, hstrict⟩
  · norm_num [pick_option_contract, broker0, select_expiry, List.find?,
      qualifies, parse0, build_cands, items0, leg22, leg31, leg45, orTruthy,
      pickBest, cand31, DEFAULT_DTE_MAX, DEFAULT_DELTA_TARGET,
      abs_of_nonneg, abs_of_nonpos]
  · norm_num [pick_option_contract, brokerNoCands, broker0, select_expiry,
      List.find?, qualifies, parse0, build_cands, pickBest, DEFAULT_DTE_MAX,
      DEFAULT_DELTA_TARGET]

/-- Witness for C7: on the spec's example candidate list, the selector
returns the 0.31-delta candidate, which is globally minimal and strictly
better than everything listed before it. -/
theorem C7_nearest_delta_witness :
    ∃ l1 l2, ([cand22, cand31, cand45] : List Cand) = l1 ++ cand31 :: l2 ∧
      (∀ d ∈ ([cand22, cand31, cand45] : List Cand),
         |cand31.delta - 3/10| ≤ |d.delta - 3/10|) ∧
      ∀ d ∈ l1, |cand31.delta - 3/10| < |d.delta - 3/10| :=
  (C7_nearest_delta (3/10) [cand22, cand31, cand45] cand31).2.1 (by
    norm_num [pickBest, cand22, cand31, cand45, abs_of_nonneg, abs_of_nonpos])

/-- `List.find?` over a decomposed list whose prefix all fails the
predicate returns the marked element when it passes. -/
lemma find?_prefix_none {p : Expiration → Bool} :
    ∀ (l1 : List Expiration) (e : Expiration) (l2 : List Expiration),
      (∀ x ∈ l1, p x = false) → p e = true →
      List.find? p (l1 ++ e :: l2) = some e := by
  intro l1
  induction l1 with
  | nil =>
    intro e l2 _ hp
    simpa [List.find?_cons] using by rw [hp]
  | cons a l ih =>
    intro e l2 hall hp
    have ha : p a = false := hall a (by simp)
    rw [List.cons_append, List.find?_cons, ha]
    exact ih e l2 (fun x hx => hall x (by simp [hx])) hp

/-- C8: `qualifies` holds exactly when the entry has a parseable expiry date
whose days-to-expiry `dte = (t - today)/86400` satisfies `0 < dte ≤ maxDte`
(default 7); on a non-empty listing the selector returns the date of the
first qualifying expiration, and when none qualifies it falls back to the
first listed expiration's date regardless of the window — it never fails
solely on a window miss. -/
theorem C8_expiry_window (parse : String → Option Rat) (today maxDte : Rat)
    (e0 : Expiration) (rest : List Expiration) :
    (∀ e : Expiration,
       qualifies parse today maxDte e = true ↔
         ∃ ed t, e.expireDate = some ed ∧ parse ed = some t ∧
           0 < (t - today) / 86400 ∧ (t - today) / 86400 ≤ maxDte) ∧
    DEFAULT_DTE_MAX = 7 ∧
    (∀ l1 e l2, e0 :: rest = l1 ++ e :: l2 →
       (∀ x ∈ l1, qualifies parse today maxDte x = false) →
       qualifies parse today maxDte e = true → e.expireDate ≠ some "" →
       select_expiry parse today maxDte (e0 :: rest) = e.expireDate) ∧
    ((∀ x ∈ e0 :: rest, qualifies parse today maxDte x = false) →
       select_expiry parse today maxDte (e0 :: rest) = e0.expireDate) := by
  refine ⟨?_, rfl, ?_, ?_⟩
  · intro e
    unfold qualifies
    cases he : e.expireDate with
    | none => simp [he]
    | some ed =>
      cases hp : parse ed with
      | none => simp [he, hp]
      | some t => simp [he, hp]
  · intro l1 e l2 hdec hall hq hne
    obtain ⟨ed, hed⟩ : ∃ ed, e.expireDate = some ed := by
      unfold qualifies at hq
      cases he : e.expireDate with
      | none => rw [he] at hq; cases hq
      | some ed => exact ⟨ed, rfl⟩
    have hedne : ed ≠ "" := by
      intro hcontra
      rw [hcontra] at hed
      exact hne hed
    unfold select_expiry
    rw [hdec, find?_prefix_none l1 e l2 hall hq]
    simp [hed, hedne]
  · intro hall
    unfold select_expiry
    rw [List.find?_eq_none.mpr fun x hx => by simp [hall x hx]]
    simp

/-- Witness for C8: on `broker0`'s single listed expiration, one day out with
a 7-day window, the selector returns that expiration's date. -/
theorem C8_expiry_window_witness :
    select_expiry parse0 0 DEFAULT_DTE_MAX [exp0] = exp0.expireDate :=
  (C8_expiry_window parse0 0 DEFAULT_DTE_MAX exp0 []).2.2.1 [] exp0 [] rfl
    (by simp) (by norm_num [qualifies, parse0, exp0, DEFAULT_DTE_MAX])
    (by simp [exp0])

/-- Concrete run used by the C2 and C4 counterexamples: a neutral signal that
passes signature, validation and dedup is answered with status `"ignored"`
(reason `"neutral"`), no broker call, and its idempotency key recorded. -/
lemma trade_neutral_eval :
    trade cfg0 broker0 parse0 0 0 st0 (mkReq sigNeutral) =
      (.ok { status := "ignored", reason := some "neutral" },
       { seen := [("k1", 0)], logged := true }, []) := by
  simp [trade, mkReq, sigNeutral, sigOpt, st0, is_dup, purge]

/-- C2 (amended): a signal of bias NEUTRAL passing signature verification,
payload validation, and the dedup check is answered with a decision of status
`"ignored"` carrying reason `"neutral"` — not a status `"ignored_neutral"` —
with an empty broker-call trace and only the dedup table updated. -/
theorem C2_neutral_ignored (cfg : Config) (b : Broker)
    (parse : String → Option Rat) (now today : Rat) (st : St) (sig : BmsSignal)
    (hbias : sig.bias = .NEUTRAL)
    (hdup : (is_dup now st.seen sig.idempotency_key).1 = false) :
    trade cfg b parse now today st (mkReq sig) =
      (.ok { status := "ignored", reason := some "neutral" },
       { st with seen := (is_dup now st.seen sig.idempotency_key).2 }, []) := by
  simp [trade, mkReq, hdup, hbias]

/-- Witness for C2: the concrete neutral signal through the full router. -/
theorem C2_neutral_ignored_witness :
    trade cfg0 broker0 parse0 0 0 st0 (mkReq sigNeutral) =
      (.ok { status := "ignored", reason := some "neutral" },
       { st0 with seen := (is_dup 0 st0.seen sigNeutral.idempotency_key).2 }, []) :=
  C2_neutral_ignored cfg0 broker0 parse0 0 0 st0 sigNeutral rfl
    (by simp [st0, is_dup, purge])

/-- Counterexample for C2 as stated: the admitted neutral signal is answered
with status `"ignored"`, which is not the claimed `"ignored_neutral"`. -/
theorem C2_counterexample :
    statusOf (trade cfg0 broker0 parse0 0 0 st0 (mkReq sigNeutral)).1 =
      some "ignored" ∧
    statusOf (trade cfg0 broker0 parse0 0 0 st0 (mkReq sigNeutral)).1 ≠
      some "ignored_neutral" := by
  rw [trade_neutral_eval]
  exact ⟨rfl, by simp [statusOf]⟩

/-- C3 (amended): with dry-run enabled no Session Gate or broker capability
is invoked for any input and the logged-in flag is untouched; the Decision
status is `dry_run` exactly for requests that pass signature, validation,
dedup, the bias filter, and the symbol check — earlier rejections keep their
own statuses even in dry-run mode. -/
theorem C3_dry_run (cfg : Config) (b : Broker) (parse : String → Option Rat)
    (now today : Rat) (st : St) (req : Req) (hdry : cfg.dryRun = true) :
    (trade cfg b parse now today st req).2.2 = [] ∧
    (trade cfg b parse now today st req).2.1.logged = st.logged ∧
    (∀ sig, req = mkReq sig →
       (is_dup now st.seen sig.idempotency_key).1 = false →
       sig.bias ≠ .NEUTRAL → is_unsupported_symbol sig.symbol = false →
       trade cfg b parse now today st req =
         (.ok { status := "dry_run", product := some sig.product
                symbol := some sig.symbol
                side := some (if sig.bias = .CALL then "BUY" else "SELL") },
          { st with seen := (is_dup now st.seen sig.idempotency_key).2 }, [])) := by
  have hpair : (trade cfg b parse now today st req).2.2 = [] ∧
      (trade cfg b parse now today st req).2.1.logged = st.logged := by
    rcases req with ⟨sigOk, payload⟩
    cases sigOk
    · simp [trade]
    · cases payload with
      | none => simp [trade]
      | some sig =>
        by_cases hdup : (is_dup now st.seen sig.idempotency_key).1
        · simp [trade, hdup]
        · by_cases hneu : sig.bias = .NEUTRAL
          · simp [trade, hdup, hneu]
          · by_cases hsym : is_unsupported_symbol sig.symbol
            · simp [trade, hdup, hneu, hsym]
            · simp [trade, hdup, hneu, hsym, hdry]
  refine ⟨hpair.1, hpair.2, ?_⟩
  intro sig hreq hdup hneu hsym
  subst hreq
  simp [trade, mkReq, hdup, hneu, hsym, hdry]

/-- Witness for C3: a dry-run request that passes every check is answered
`dry_run` with an empty broker-call trace. -/
theorem C3_dry_run_witness :
    trade cfgDry broker0 parse0 0 0 st0 (mkReq sigOpt) =
      (.ok { status := "dry_run", product := some sigOpt.product
             symbol := some sigOpt.symbol
             side := some (if sigOpt.bias = .CALL then "BUY" else "SELL") },
       { st0 with seen := (is_dup 0 st0.seen sigOpt.idempotency_key).2 }, []) :=
  (C3_dry_run cfgDry broker0 parse0 0 0 st0 (mkReq sigOpt) rfl).2.2 sigOpt rfl
    (by simp [st0, is_dup, purge]) (by decide) (by decide)

/-- Counterexample for C3 as stated: with dry-run enabled, a duplicate
request is still answered `"duplicate_ignored"`, not `"dry_run"`. -/
theorem C3_counterexample :
    cfgDry.dryRun = true ∧
    statusOf (trade cfgDry broker0 parse0 0 0 stDup (mkReq sigOpt)).1 =
      some "duplicate_ignored" ∧
    statusOf (trade cfgDry broker0 parse0 0 0 stDup (mkReq sigOpt)).1 ≠
      some "dry_run" := by
  have hdup : (is_dup 0 stDup.seen sigOpt.idempotency_key).1 = true := by
    norm_num [is_dup, purge, stDup, sigOpt, TTL]
  refine ⟨rfl, ?_, ?_⟩ <;>
    simp [trade, mkReq, hdup, statusOf]

/-- C4 (amended): requests rejected before the dedup check — bad signature or
invalid payload — leave every piece of process state unchanged and make no
broker call; requests rejected at or after the dedup check — duplicate,
neutral bias, unsupported symbol — make no broker call and leave the
logged-in flag unchanged, but do mutate the dedup cache: expired entries are
purged and, for the non-duplicate rejections, the request's idempotency key
is recorded. -/
theorem C4_pre_broker_effects (cfg : Config) (b : Broker)
    (parse : String → Option Rat) (now today : Rat) (st : St) (req : Req) :
    (req.sigOk = false →
       trade cfg b parse now today st req =
         (.httpError 401 "Bad signature", st, [])) ∧
    (req.sigOk = true → req.payload = none →
       trade cfg b parse now today st req =
         (.httpError 400 "Bad payload", st, [])) ∧
    (∀ sig, req.sigOk = true → req.payload = some sig →
       ((is_dup now st.seen sig.idempotency_key).1 = true →
          trade cfg b parse now today st req =
            (.ok { status := "duplicate_ignored" },
             { st with seen := (is_dup now st.seen sig.idempotency_key).2 },
             [])) ∧
       ((is_dup now st.seen sig.idempotency_key).1 = false →
          sig.bias = .NEUTRAL →
          trade cfg b parse now today st req =
            (.ok { status := "ignored", reason := some "neutral" },
             { st with seen := (is_dup now st.seen sig.idempotency_key).2 },
             [])) ∧
       ((is_dup now st.seen sig.idempotency_key).1 = false →
          sig.bias ≠ .NEUTRAL → is_unsupported_symbol sig.symbol = true →
          trade cfg b parse now today st req =
            (.httpError 422
               "Webull PAPER options/equity supports stocks/ETFs, not crypto.",
             { st with seen := (is_dup now st.seen sig.idempotency_key).2 },
             []))) := by
  refine ⟨?_, ?_, ?_⟩
  · intro h
    simp [trade, h]
  · intro h1 h2
    simp [trade, h1, h2]
  · intro sig h1 h2
    refine ⟨?_, ?_, ?_⟩
    · intro hdup
      simp [trade, h1, h2, hdup]
    · intro hdup hneu
      simp [trade, h1, h2, hdup, hneu]
    · intro hdup hneu hsym
      simp [trade, h1, h2, hdup, hneu, hsym]

/-- Witness for C4: a duplicate request is rejected with only the purge
applied to the dedup table, the logged-in flag untouched and no broker
call. -/
theorem C4_pre_broker_effects_witness :
    trade cfg0 broker0 parse0 0 0 stDup (mkReq sigOpt) =
      (.ok { status := "duplicate_ignored" },
       { stDup with seen := (is_dup 0 stDup.seen sigOpt.idempotency_key).2 },
       []) :=
  ((C4_pre_broker_effects cfg0 broker0 parse0 0 0 stDup (mkReq sigOpt)).2.2
      sigOpt rfl rfl).1
    (by norm_num [is_dup, purge, stDup, sigOpt, TTL])

/-- Counterexample for C4 as stated: the rejected (neutral-bias) request
mutates the dedup cache — its idempotency key is inserted, so process state
is not unchanged. -/
theorem C4_counterexample :
    st0.seen = [] ∧
    (trade cfg0 broker0 parse0 0 0 st0 (mkReq sigNeutral)).2.1.seen =
      [("k1", 0)] := by
  rw [trade_neutral_eval]
  exact ⟨rfl, rfl⟩

/-- C1: evaluation at the failing input — the options order raises, the
inner equity fallback raises, and contrary to the claim's "hard failure with
no further order", the outer handler attempts a second equity placement,
which here succeeds and reports `fallback_equity`: two equity placements
occur in one request. -/
theorem C1_double_fallback_eval :
    trade cfg0 brokerC1 parse0 0 0 st0 (mkReq sigOpt) =
      (.ok { status := "fallback_equity"
             reason := some "options_unavailable: rejected"
             qty := some 12, res := some "eid2" },
       { seen := [("k1", 0)], logged := true },
       [.getOptions "QQQ", .getOptionQuote "QQQ" (some "2025-01-10"),
        .placeOptionOrder "QQQ" "BUY" 20 "c31",
        .placeEquityOrder "QQQ" "BUY" 12, .placeEquityOrder "QQQ" "BUY" 12]) ∧
    countEquityOrders (trade cfg0 brokerC1 parse0 0 0 st0 (mkReq sigOpt)).2.2 = 2 := by
  have h12 : (⌊(25:Rat)/2⌋ : Int) = 12 := by
    rw [Int.floor_eq_iff]
    norm_num
  have h20 : (⌊(20:Rat)⌋ : Int) = 20 := by
    rw [Int.floor_eq_iff]
    norm_num
  have hsym : is_unsupported_symbol "QQQ" = false := by decide
  have hb : Bias.CALL ≠ Bias.NEUTRAL := by decide
  have heval : trade cfg0 brokerC1 parse0 0 0 st0 (mkReq sigOpt) =
      (.ok { status := "fallback_equity"
             reason := some "options_unavailable: rejected"
             qty := some 12, res := some "eid2" },
       { seen := [("k1", 0)], logged := true },
       [.getOptions "QQQ", .getOptionQuote "QQQ" (some "2025-01-10"),
        .placeOptionOrder "QQQ" "BUY" 20 "c31",
        .placeEquityOrder "QQQ" "BUY" 12, .placeEquityOrder "QQQ" "BUY" 12]) := by
    norm_num [trade, mkReq, sigOpt, cfg0, st0, brokerC1, broker0, is_dup, purge,
      lazy_login, hsym, hb, abs_of_nonneg, abs_of_nonpos, option_path,
      pick_option_contract, select_expiry, List.find?, qualifies, parse0,
      build_cands, items0, leg22, leg31, leg45, orTruthy, pickBest,
      computed_contracts, contracts_from_notional, shares_from_notional,
      NOTIONAL_DEFAULT, DEFAULT_DELTA_TARGET, DEFAULT_DTE_MAX, Bias.toRight,
      h12, h20]
    rfl
  refine ⟨heval, ?_⟩
  rw [heval]
  rfl

/-- C9 (amended): on the option path the premium is guarded to the 0.05
floor; the contract count equals the signal's explicit `contracts` field when
that field is supplied and nonzero, but a supplied zero is treated as absent
(Python `or` truthiness) and falls back — like an absent field — to
`contracts_from_notional` of the configured notional and the guarded premium;
a positive count is exactly the count sent to the options order, and a
count ≤ 0 raises the internal error, which aborts the options order and
takes the equity fallback. -/
theorem C9_contract_sizing (cfg : Config) (b : Broker)
    (parse : String → Option Rat) (today : Rat) (sig : BmsSignal)
    (side : String) (chosen : Cand) (tr : List BrokerCall)
    (hpick : pick_option_contract parse today cfg.dteMax cfg.deltaTarget b
        sig.symbol (sig.right.getD sig.bias.toRight) = (.ok chosen, tr)) :
    (∀ n : Int, sig.contracts = some n → n ≠ 0 →
       computed_contracts sig.contracts cfg.notional (max chosen.last (1/20)) = n) ∧
    ((sig.contracts = none ∨ sig.contracts = some 0) →
       computed_contracts sig.contracts cfg.notional (max chosen.last (1/20)) =
         contracts_from_notional cfg.notional (max chosen.last (1/20))) ∧
    (0 < computed_contracts sig.contracts cfg.notional (max chosen.last (1/20)) →
       ∃ rest, (option_path cfg b parse today sig side).2 =
         tr ++ .placeOptionOrder sig.symbol side
           (computed_contracts sig.contracts cfg.notional (max chosen.last (1/20)))
           chosen.contractId :: rest) ∧
    (computed_contracts sig.contracts cfg.notional (max chosen.last (1/20)) ≤ 0 →
       (option_path cfg b parse today sig side).2 =
         tr ++ [.placeEquityOrder sig.symbol side
           (shares_from_notional cfg.notional (max sig.price (1/100)))]) := by
  refine ⟨?_, ?_, ?_, ?_⟩
  · intro n hn hnz
    simp [computed_contracts, hn, hnz]
  · rintro (h | h) <;> simp [computed_contracts, h]
  · intro hpos
    simp only [option_path]
    rw [hpick]
    simp only
    rw [if_neg (not_le.mpr hpos)]
    cases b.optionOrder with
    | ok r => exact ⟨_, rfl⟩
    | error e =>
      cases b.equityOrder 0 with
      | ok r2 => exact ⟨_, rfl⟩
      | error e2 =>
        cases b.equityOrder 1 with
        | ok r3 => exact ⟨_, rfl⟩
        | error e3 => exact ⟨_, rfl⟩
  · intro hle
    simp only [option_path]
    rw [hpick]
    simp only
    rw [if_pos hle]
    cases b.equityOrder 0 with
    | ok r2 => rfl
    | error e2 => rfl

/-- Witness for C9: an explicit nonzero contract count of 5 is used as-is. -/
theorem C9_contract_sizing_witness :
    computed_contracts sigOptFive.contracts cfg0.notional
      (max cand31.last (1/20)) = 5 :=
  (C9_contract_sizing cfg0 broker0 parse0 0 sigOptFive "BUY" cand31
      [.getOptions "QQQ", .getOptionQuote "QQQ" (some "2025-01-10")]
      (by norm_num [pick_option_contract, broker0, select_expiry, List.find?,
        qualifies, parse0, build_cands, items0, leg22, leg31, leg45, orTruthy,
        pickBest, cand31, cfg0, sigOptFive, sigOpt, Bias.toRight,
        DEFAULT_DTE_MAX, DEFAULT_DELTA_TARGET, abs_of_nonneg, abs_of_nonpos])).1
    5 rfl (by decide)

/-- Counterexample for C9 as stated: a supplied explicit contract count of 0
is not used for the order; the options order is placed with the
notional-computed count 20 instead. -/
theorem C9_counterexample :
    sigOptZero.contracts = some 0 ∧
    (trade cfg0 broker0 parse0 0 0 st0 (mkReq sigOptZero)).2.2 =
      [.getOptions "QQQ", .getOptionQuote "QQQ" (some "2025-01-10"),
       .placeOptionOrder "QQQ" "BUY" 20 "c31"] ∧
    (20 : Int) ≠ 0 := by
  have h20 : (⌊(20:Rat)⌋ : Int) = 20 := by
    rw [Int.floor_eq_iff]
    norm_num
  have hsym : is_unsupported_symbol "QQQ" = false := by decide
  have hb : Bias.CALL ≠ Bias.NEUTRAL := by decide
  refine ⟨rfl, ?_, by decide⟩
  norm_num [trade, mkReq, sigOptZero, sigOpt, cfg0, st0, broker0, is_dup, purge,
    lazy_login, hsym, hb, abs_of_nonneg, abs_of_nonpos, option_path,
    pick_option_contract, select_expiry, List.find?, qualifies, parse0,
    build_cands, items0, leg22, leg31, leg45, orTruthy, pickBest,
    computed_contracts, contracts_from_notional,
    NOTIONAL_DEFAULT, DEFAULT_DELTA_TARGET, DEFAULT_DTE_MAX, Bias.toRight, h20]

end BmsRouter
